import Mathlib

/-!
Verification development for the review-dashboard pipeline in `Code/app.py`.

The program loads a table of review rows (nullable text `review_content`,
integer sentiment code `label`), derives three columns (`language`, `length`,
`sentiment_label`), filters by language, sentiment-set membership and a text
search, and aggregates the filtered subset into scalar statistics.

Modelling conventions:
- a pandas cell that may be NaN becomes `Option _` (so `review_content :
  Option String`, `length : Option Nat`, `sentiment_label : Option String`);
- the table is a `List` of rows; a boolean-mask selection becomes
  `List.filter`;
- floating-point statistics are modelled over `ℚ` (the quantities the claims
  mention are exact: 0, counts, means); a statistic that can be NaN is an
  `Option ℚ`;
- pandas `Series.str.contains(q, case=False, na=False)` compiles `q` as a
  regular expression (the pandas default `regex=True`) with `re.IGNORECASE`
  and tests `re.search` on each non-null cell, `False` on null cells; an
  invalid pattern raises `re.error`.  We model compilation as an
  `Option`-valued function over the fragment of patterns exercised by the
  claims (literal characters and the `.` wildcard; any other regex
  metacharacter is mapped to compilation failure - for `"("` alone this is
  exactly Python's behaviour, which raises `re.error: missing ),
  unterminated subpattern`), and a failed compilation makes the whole
  filter step fail (`none`).
-/

namespace SentimentScope

/-- A raw review row as read from the CSV: `review_content` may be NaN
(absent), `label` is an integer sentiment code. -/
structure RawRow where
  review_content : Option String
  label : Int
deriving DecidableEq

/-- A row after the enrichment in `load_data` (app.py lines 29-37): the raw
fields plus the derived `language`, `length` and `sentiment_label` columns.
`length` and `sentiment_label` can be NaN, hence `Option`. -/
structure ERow where
  review_content : Option String
  label : Int
  language : String
  length : Option Nat
  sentiment_label : Option String
deriving DecidableEq

/-- The sidebar filter selection: language radio value, multiselect sentiment
list, and the search text (app.py lines 50-65). -/
structure Selection where
  lang : String
  sentiments : List String
  search : String
deriving DecidableEq

/-- Language detection (app.py lines 22-27): NaN text is `"Unknown"`; text
with at least one character in the Arabic Unicode block U+0600-U+06FF is
`"Arabic"`; everything else is `"English"`. -/
def detect_language (text : Option String) : String :=
  match text with
  | none => "Unknown"
  | some s =>
      if s.data.any (fun c => decide (0x600 ≤ c.toNat ∧ c.toNat ≤ 0x6FF)) then
        "Arabic"
      else
        "English"

/-- The sentiment lookup (app.py line 36): `{-1: 'Negative', 0: 'Neutral',
1: 'Positive'}`; pandas `Series.map` yields NaN for keys outside the dict,
hence `none`. -/
def label_map (l : Int) : Option String :=
  if l = -1 then some "Negative"
  else if l = 0 then some "Neutral"
  else if l = 1 then some "Positive"
  else none

/-- Column enrichment (app.py lines 29-37): apply `detect_language` to the
text, take the null-propagating character count (`Series.str.len`), and map
`label` through `label_map`. -/
def enrich (r : RawRow) : ERow :=
  { review_content := r.review_content
    label := r.label
    language := detect_language r.review_content
    length := r.review_content.map String.length
    sentiment_label := label_map r.label }

/-! The search pattern.  `str.contains` with the pandas default `regex=True`
compiles the search text with `re.compile`; we model the fragment of Python
regular expressions made of literal characters and the `.` wildcard. -/

/-- An atom of the modelled regex fragment: a literal character or the `.`
wildcard. -/
inductive RAtom where
  | lit : Char → RAtom
  | dot : RAtom
deriving DecidableEq

/-- The characters Python `re` treats as metacharacters outside a class. -/
def isMeta (c : Char) : Bool :=
  ['.', '^', '$', '*', '+', '?', '\x7b', '\x7d', '[', ']', '\\', '|', '(', ')'].contains c

/-- Compile a list of pattern characters into atoms.  A metacharacter other
than `.` is outside the modelled fragment and yields `none` (for `"("` this
matches Python, where `re.compile` raises `re.error`). -/
def compileChars : List Char → Option (List RAtom)
  | [] => some []
  | c :: cs =>
      if c = '.' then
        (compileChars cs).map (fun ps => RAtom.dot :: ps)
      else if isMeta c then
        none
      else
        (compileChars cs).map (fun ps => RAtom.lit c :: ps)

/-- Compile a search text as `re.compile` does for the modelled fragment. -/
def compilePat (q : String) : Option (List RAtom) :=
  compileChars q.data

/-- One atom against one character, under `re.IGNORECASE` (`case=False`):
a literal compares case-insensitively, `.` matches anything but newline. -/
def atomMatch (a : RAtom) (c : Char) : Bool :=
  match a with
  | RAtom.lit l => l.toLower == c.toLower
  | RAtom.dot => c != '\n'

/-- Match the whole atom list at the head of the character list. -/
def matchAtoms : List RAtom → List Char → Bool
  | [], _ => true
  | _ :: _, [] => false
  | a :: ps, c :: cs => atomMatch a c && matchAtoms ps cs

/-- `re.search` for the modelled fragment: try the pattern at every start
position. -/
def reSearch (p : List RAtom) : List Char → Bool
  | [] => matchAtoms p []
  | c :: cs => matchAtoms p (c :: cs) || reSearch p cs

/-- The language mask (app.py line 71): row's `language` equals the selected
value. -/
def langPred (sel : Selection) (r : ERow) : Bool :=
  r.language == sel.lang

/-- The sentiment mask (app.py line 73): `sentiment_label.isin(selected)`;
a NaN label is never a member, so it yields `false`. -/
def sentPred (sel : Selection) (r : ERow) : Bool :=
  match r.sentiment_label with
  | some s => sel.sentiments.contains s
  | none => false

/-- The search mask for a compiled pattern (app.py line 76):
`str.contains(query, case=False, na=False)`; a NaN cell gives `false`
(`na=False`), otherwise `re.search` on the cell. -/
def searchPredP (p : List RAtom) (r : ERow) : Bool :=
  match r.review_content with
  | some t => reSearch p t.data
  | none => false

/-- The language step (app.py lines 70-71): applied only when the radio is
not `"All"`. -/
def stage1 (df : List ERow) (sel : Selection) : List ERow :=
  if sel.lang != "All" then df.filter (langPred sel) else df

/-- The sentiment step (app.py line 73): always applied. -/
def stage2 (df : List ERow) (sel : Selection) : List ERow :=
  (stage1 df sel).filter (sentPred sel)

/-- The full filter (app.py lines 68-76).  The search step runs only for a
non-empty search text (Python truthiness of `if search_query:`); its pattern
compilation can fail, which makes the whole computation fail (`none`),
modelling the raised `re.error`. -/
def filtered_df (df : List ERow) (sel : Selection) : Option (List ERow) :=
  if sel.search != "" then
    (compilePat sel.search).map (fun p => (stage2 df sel).filter (searchPredP p))
  else
    some (stage2 df sel)

/-- Follows the spec's words (Filter Engine, search predicate): the row text
contains the search text as a literal substring, compared
case-insensitively.  Kept separate from the source-derived `searchPredP` so
the two can be compared. -/
def containsSeq (pat : List Char) : List Char → Bool
  | [] => pat.isEmpty
  | c :: cs => List.isPrefixOf pat (c :: cs) || containsSeq pat cs

/-- Follows the spec's words: case-insensitive literal substring test. -/
def specContainsCI (content q : String) : Bool :=
  containsSeq (q.data.map Char.toLower) (content.data.map Char.toLower)

/-! The aggregator (app.py lines 85-94), computed over the filtered subset. -/

/-- Total review count (app.py line 85): `len(filtered_df)`. -/
def total (df : List ERow) : Nat :=
  df.length

/-- Positive percentage (app.py line 88): `100 * count(label == 1) / total`
when the subset is non-empty, else `0`. -/
def positive_pct (df : List ERow) : ℚ :=
  if 0 < df.length then
    ((df.filter (fun r => r.label == 1)).length : ℚ) / (df.length : ℚ) * 100
  else 0

/-- Pandas `Series.mean` over a nullable column: NaN entries are skipped;
the mean of no entries is NaN (`none`). -/
def seriesMean (xs : List (Option Nat)) : Option ℚ :=
  let v := xs.filterMap (fun x => x)
  if v.isEmpty then none
  else some ((v.sum : ℚ) / (v.length : ℚ))

/-- Average review length (app.py line 91): `filtered_df['length'].mean()`
when the subset is non-empty, else `0`. -/
def avg_len (df : List ERow) : Option ℚ :=
  if 0 < df.length then seriesMean (df.map (fun r => r.length))
  else some 0

/-- Arabic percentage (app.py line 93): `100 * count(language == 'Arabic') /
total` when the subset is non-empty, else `0`. -/
def arabic_pct (df : List ERow) : ℚ :=
  if 0 < df.length then
    ((df.filter (fun r => r.language == "Arabic")).length : ℚ) / (df.length : ℚ) * 100
  else 0

/-- The lengths that are defined (not NaN) in a subset, in row order. -/
def definedLengths (df : List ERow) : List Nat :=
  (df.map (fun r => r.length)).filterMap (fun x => x)

/-- The four aggregate statistics of one recomputation pass. -/
def aggregates (df : List ERow) : Nat × ℚ × Option ℚ × ℚ :=
  (total df, positive_pct df, avg_len df, arabic_pct df)

/-- One filter pass as a state transformer on the bindings of app.py lines
68-76: the source table binding `df` together with the freshly computed
`filtered_df` (the code copies `df` and only ever reassigns the copy). -/
def run_filter (df : List ERow) (sel : Selection) : List ERow × Option (List ERow) :=
  (df, filtered_df df sel)

/-- The whole filter-then-aggregate pass: the subset and its statistics. -/
def pipeline (df : List ERow) (sel : Selection) : Option (List ERow × (Nat × ℚ × Option ℚ × ℚ)) :=
  (filtered_df df sel).map (fun sub => (sub, aggregates sub))

/-- The worked example of the spec: three raw rows. -/
def sampleRows : List RawRow :=
  [⟨some "Great service", 1⟩, ⟨some "خدمة سيئة", -1⟩, ⟨some "Okay", 0⟩]

/-- The worked example after enrichment. -/
def sampleDf : List ERow :=
  sampleRows.map enrich

/-! Helper lemmas about the filter stages. -/

theorem mem_of_mem_stage1 {df : List ERow} {sel : Selection} {x : ERow}
    (h : x ∈ stage1 df sel) : x ∈ df := by
  unfold stage1 at h
  split at h
  · exact List.mem_of_mem_filter h
  · exact h

theorem langPred_of_mem_stage1 {df : List ERow} {sel : Selection} {x : ERow}
    (hL : (sel.lang != "All") = true) (h : x ∈ stage1 df sel) :
    langPred sel x = true := by
  unfold stage1 at h
  rw [if_pos hL] at h
  exact List.of_mem_filter h

theorem mem_stage2_elim {df : List ERow} {sel : Selection} {x : ERow}
    (h : x ∈ stage2 df sel) : x ∈ stage1 df sel ∧ sentPred sel x = true := by
  unfold stage2 at h
  exact ⟨List.mem_of_mem_filter h, List.of_mem_filter h⟩

theorem stage1_eq_of_forall {df : List ERow} {sel : Selection}
    (h : (sel.lang != "All") = true → ∀ x ∈ df, langPred sel x = true) :
    stage1 df sel = df := by
  unfold stage1
  split
  · exact List.filter_eq_self.mpr (fun a ha => h (by assumption) a ha)
  · rfl

/-- A row of a successfully filtered subset passed the sentiment stage. -/
theorem mem_stage2_of_filtered {df : List ERow} {sel : Selection} {sub : List ERow} {x : ERow}
    (h : filtered_df df sel = some sub) (hx : x ∈ sub) : x ∈ stage2 df sel := by
  unfold filtered_df at h
  split at h
  · cases hp : compilePat sel.search with
    | none => rw [hp] at h; simp at h
    | some p =>
        rw [hp, Option.map_some'] at h
        injection h with h
        rw [← h] at hx
        exact List.mem_of_mem_filter hx
  · injection h with h
    rw [← h] at hx
    exact hx

end SentimentScope

namespace SentimentScope

/-- C4: the Language Classifier maps a null input to "Unknown", any input
with a character in the Arabic block U+0600-U+06FF to "Arabic", and every
other non-null input to "English". -/
theorem spec_C4 :
    detect_language none = "Unknown" ∧
    ∀ s : String,
      ((∃ c, c ∈ s.data ∧ 0x600 ≤ c.toNat ∧ c.toNat ≤ 0x6FF) →
        detect_language (some s) = "Arabic") ∧
      ((¬ ∃ c, c ∈ s.data ∧ 0x600 ≤ c.toNat ∧ c.toNat ≤ 0x6FF) →
        detect_language (some s) = "English") := by
  refine ⟨rfl, fun s => ⟨?_, ?_⟩⟩
  · intro h
    have hb : (s.data.any fun c => decide (0x600 ≤ c.toNat ∧ c.toNat ≤ 0x6FF)) = true := by
      rw [List.any_eq_true]
      simpa using h
    simp only [detect_language]
    rw [if_pos hb]
  · intro h
    have hb : ¬ (s.data.any fun c => decide (0x600 ≤ c.toNat ∧ c.toNat ≤ 0x6FF)) = true := by
      intro hc
      exact h (by simpa using List.any_eq_true.mp hc)
    simp only [detect_language]
    rw [if_neg hb]

/-- Witness for C4 at concrete inputs: an English text and an Arabic text. -/
theorem spec_C4_witness :
    detect_language (some "Great service") = "English" ∧
    detect_language (some "خدمة سيئة") = "Arabic" :=
  ⟨(spec_C4.2 "Great service").2 (by decide), (spec_C4.2 "خدمة سيئة").1 (by decide)⟩

/-- C1: evidence that the search step is not a literal substring test.  The
code passes the search text to pandas `str.contains` with the default
`regex=True`, so the text is a regular expression: searching "." keeps a row
whose text is "xyz" although "xyz" does not contain "." as a substring, and
searching "(" makes pattern compilation fail (Python raises `re.error`)
instead of never raising. -/
theorem spec_C1_bug :
    filtered_df [enrich ⟨some "xyz", 1⟩]
        ⟨"All", ["Positive", "Neutral", "Negative"], "."⟩ =
      some [enrich ⟨some "xyz", 1⟩] ∧
    specContainsCI "xyz" "." = false ∧
    filtered_df [enrich ⟨some "xyz", 1⟩]
        ⟨"All", ["Positive", "Neutral", "Negative"], "("⟩ = none := by
  decide

/-- C5: with an empty sentiment set the filter yields the empty subset for an
empty search and for a search that compiles, but a search text that is an
invalid pattern ("(") makes the whole filter fail (Python raises `re.error`
while compiling the pattern, even though the frame is already empty) instead
of returning the empty subset. -/
theorem spec_C5_bug :
    filtered_df [enrich ⟨some "Great service", 1⟩] ⟨"All", [], ""⟩ = some [] ∧
    filtered_df [enrich ⟨some "Great service", 1⟩] ⟨"English", [], "pizza"⟩ = some [] ∧
    filtered_df [enrich ⟨some "Great service", 1⟩] ⟨"All", [], "("⟩ = none := by
  decide

/-- C2 counterexample: on a non-empty subset all of whose lengths are
undefined (one row with null `review_content`), the code's average length is
NaN (pandas `mean` of no non-NaN entries), not the 0 the claim states. -/
theorem spec_C2_cex :
    avg_len [enrich ⟨none, 0⟩] = none ∧ avg_len [enrich ⟨none, 0⟩] ≠ some 0 := by
  decide

/-- C2 amended: the average length is the arithmetic mean of the defined
lengths when at least one row has a defined length, is 0 when the subset is
empty, and is NaN (undefined) when the subset is non-empty but every row's
length is undefined. -/
theorem spec_C2 (df : List ERow) :
    (df = [] → avg_len df = some 0) ∧
    (definedLengths df ≠ [] →
      avg_len df =
        some (((definedLengths df).sum : ℚ) / ((definedLengths df).length : ℚ))) ∧
    (df ≠ [] → definedLengths df = [] → avg_len df = none) := by
  refine ⟨?_, ?_, ?_⟩
  · intro h
    rw [h]
    rfl
  · intro h
    have hd : df ≠ [] := by
      intro h0
      rw [h0] at h
      exact h rfl
    have hlen : 0 < df.length := List.length_pos.mpr hd
    have hne : ¬ ((df.map (fun r => r.length)).filterMap (fun x => x)).isEmpty = true := by
      intro hE
      exact h (List.isEmpty_iff.mp hE)
    simp [avg_len, seriesMean, definedLengths, hlen, hne]
    by_contra hco
    push_neg at hco
    apply h
    unfold definedLengths
    rw [List.filterMap_eq_nil_iff]
    intro a ha
    rcases List.mem_map.mp ha with ⟨r, hr, rfl⟩
    exact hco r hr
  · intro hd hdef
    have hlen : 0 < df.length := List.length_pos.mpr hd
    have hE : ((df.map (fun r => r.length)).filterMap (fun x => x)).isEmpty = true := by
      apply List.isEmpty_iff.mpr
      exact hdef
    simp [avg_len, seriesMean, hlen, hE]
    intro x hx
    exact List.filterMap_eq_nil_iff.mp (List.isEmpty_iff.mp hE) x.length
      (List.mem_map_of_mem (fun r => r.length) hx)

/-- Witness for C2 at concrete inputs: the empty subset, a one-row subset
with a defined length, and a one-row subset with an undefined length. -/
theorem spec_C2_witness :
    avg_len ([] : List ERow) = some 0 ∧
    avg_len [enrich ⟨some "ab", 1⟩] =
      some (((definedLengths [enrich ⟨some "ab", 1⟩]).sum : ℚ) /
        ((definedLengths [enrich ⟨some "ab", 1⟩]).length : ℚ)) ∧
    avg_len [enrich ⟨none, 3⟩] = none :=
  ⟨(spec_C2 []).1 rfl,
   (spec_C2 [enrich ⟨some "ab", 1⟩]).2.1 (by decide),
   (spec_C2 [enrich ⟨none, 3⟩]).2.2 (by decide) (by decide)⟩

/-- C6: on the empty subset the aggregator returns total 0, positive
percentage 0, average length 0 and Arabic percentage 0; whenever the subset
length is not positive each statistic is produced by the guard's else branch
(the constant 0), so the division branch runs only when the total is
positive and no division by zero can occur. -/
theorem spec_C6 :
    total ([] : List ERow) = 0 ∧
    positive_pct [] = 0 ∧
    avg_len [] = some 0 ∧
    arabic_pct [] = 0 ∧
    ∀ df : List ERow, ¬ 0 < df.length →
      positive_pct df = 0 ∧ avg_len df = some 0 ∧ arabic_pct df = 0 := by
  refine ⟨rfl, rfl, rfl, rfl, ?_⟩
  intro df h
  unfold positive_pct avg_len arabic_pct
  rw [if_neg h, if_neg h, if_neg h]
  exact ⟨rfl, rfl, rfl⟩

/-- Witness for C6 at the concrete empty subset. -/
theorem spec_C6_witness :
    positive_pct ([] : List ERow) = 0 ∧
    avg_len ([] : List ERow) = some 0 ∧
    arabic_pct ([] : List ERow) = 0 :=
  spec_C6.2.2.2.2 [] (by decide)

/-- C3: on an enriched table all of whose rows carry a sentiment code in
the declared domain, the selection (language "All", all three sentiments,
empty search) returns the full table (here even in the original order). -/
theorem spec_C3 (rows : List RawRow)
    (h : ∀ r ∈ rows, r.label = -1 ∨ r.label = 0 ∨ r.label = 1) :
    filtered_df (rows.map enrich)
        ⟨"All", ["Positive", "Neutral", "Negative"], ""⟩ =
      some (rows.map enrich) := by
  unfold filtered_df
  rw [if_neg (by decide)]
  have h1 : stage1 (rows.map enrich)
      ⟨"All", ["Positive", "Neutral", "Negative"], ""⟩ = rows.map enrich := by
    unfold stage1
    rw [if_neg (by decide)]
  unfold stage2
  rw [h1]
  rw [List.filter_eq_self.mpr]
  intro a ha
  rcases List.mem_map.mp ha with ⟨r, hr, rfl⟩
  rcases h r hr with h0 | h0 | h0 <;>
    simp [sentPred, enrich, label_map, h0]

/-- Witness for C3 on the spec's three-row worked example. -/
theorem spec_C3_witness :
    filtered_df (sampleRows.map enrich)
        ⟨"All", ["Positive", "Neutral", "Negative"], ""⟩ =
      some (sampleRows.map enrich) :=
  spec_C3 sampleRows (by decide)

/-- C8: a raw row whose sentiment code is outside the domain is enriched
with no sentiment label (NaN), and such a row is a member of no successfully
filtered subset, whatever the table and the selection. -/
theorem spec_C8 (r : RawRow)
    (h1 : r.label ≠ -1) (h2 : r.label ≠ 0) (h3 : r.label ≠ 1) :
    (enrich r).sentiment_label = none ∧
    ∀ (df : List ERow) (sel : Selection) (sub : List ERow),
      filtered_df df sel = some sub → enrich r ∉ sub := by
  have hnone : (enrich r).sentiment_label = none := by
    show label_map r.label = none
    unfold label_map
    rw [if_neg h1, if_neg h2, if_neg h3]
  refine ⟨hnone, ?_⟩
  intro df sel sub h hmem
  have hst : enrich r ∈ stage2 df sel := mem_stage2_of_filtered h hmem
  have hsent : sentPred sel (enrich r) = true := (mem_stage2_elim hst).2
  unfold sentPred at hsent
  rw [hnone] at hsent
  exact absurd hsent (by simp)

/-- Witness for C8: a row with code 5 gets no label and is absent from the
subset produced from a two-row table by the all-sentiments selection. -/
theorem spec_C8_witness :
    (enrich ⟨some "hi", 5⟩).sentiment_label = none ∧
    enrich ⟨some "hi", 5⟩ ∉ [enrich ⟨some "ok", 1⟩] :=
  ⟨(spec_C8 ⟨some "hi", 5⟩ (by decide) (by decide) (by decide)).1,
   (spec_C8 ⟨some "hi", 5⟩ (by decide) (by decide) (by decide)).2
     [enrich ⟨some "hi", 5⟩, enrich ⟨some "ok", 1⟩]
     ⟨"All", ["Positive", "Neutral", "Negative"], ""⟩
     [enrich ⟨some "ok", 1⟩] (by decide)⟩

/-- C7: the filter is idempotent; whenever a selection produces a subset,
applying the filter to that subset with the same selection returns it
unchanged. -/
theorem spec_C7 (df : List ERow) (sel : Selection) (sub : List ERow)
    (h : filtered_df df sel = some sub) :
    filtered_df sub sel = some sub := by
  have hsub : ∀ x ∈ sub, x ∈ stage2 df sel := fun x hx => mem_stage2_of_filtered h hx
  have hsent : ∀ x ∈ sub, sentPred sel x = true :=
    fun x hx => (mem_stage2_elim (hsub x hx)).2
  have hlang : (sel.lang != "All") = true → ∀ x ∈ sub, langPred sel x = true :=
    fun hL x hx => langPred_of_mem_stage1 hL (mem_stage2_elim (hsub x hx)).1
  have h1 : stage1 sub sel = sub := stage1_eq_of_forall hlang
  have h2 : stage2 sub sel = sub := by
    unfold stage2
    rw [h1]
    exact List.filter_eq_self.mpr hsent
  unfold filtered_df at h ⊢
  by_cases hS : (sel.search != "") = true
  · rw [if_pos hS] at h ⊢
    cases hp : compilePat sel.search with
    | none => rw [hp] at h; simp at h
    | some p =>
        rw [hp, Option.map_some'] at h
        injection h with h
        rw [Option.map_some', h2]
        have hsearch : ∀ x ∈ sub, searchPredP p x = true := by
          intro x hx
          rw [← h] at hx
          exact List.of_mem_filter hx
        rw [List.filter_eq_self.mpr hsearch]
  · rw [if_neg hS] at h ⊢
    injection h with h
    rw [h2]

/-- Witness for C7: the search "great" keeps exactly one row of the worked
example, and refiltering that subset with the same selection fixes it. -/
theorem spec_C7_witness :
    filtered_df [enrich ⟨some "Great service", 1⟩]
        ⟨"All", ["Positive", "Neutral", "Negative"], "great"⟩ =
      some [enrich ⟨some "Great service", 1⟩] :=
  spec_C7 (sampleRows.map enrich)
    ⟨"All", ["Positive", "Neutral", "Negative"], "great"⟩
    [enrich ⟨some "Great service", 1⟩] (by decide)

/-- C9: a filter pass leaves the source table binding unchanged and, when it
succeeds, its subset is a sublist of the source, so the source rows are
reused as they are and the table itself is never mutated. -/
theorem spec_C9 (df : List ERow) (sel : Selection) :
    (run_filter df sel).1 = df ∧
    ∀ sub, (run_filter df sel).2 = some sub → List.Sublist sub df := by
  refine ⟨rfl, ?_⟩
  intro sub h
  have h1 : List.Sublist (stage1 df sel) df := by
    unfold stage1
    split
    · exact List.filter_sublist _
    · exact List.Sublist.refl _
  have h2 : List.Sublist (stage2 df sel) (stage1 df sel) := List.filter_sublist _
  have hsub : List.Sublist sub (stage2 df sel) := by
    show List.Sublist sub (stage2 df sel)
    unfold run_filter filtered_df at h
    split at h
    · cases hp : compilePat sel.search with
      | none => rw [hp] at h; simp at h
      | some p =>
          rw [hp, Option.map_some'] at h
          injection h with h
          rw [← h]
          exact List.filter_sublist _
    · injection h with h
      rw [← h]
  exact hsub.trans (h2.trans h1)

/-- Witness for C9 on the worked example with the Arabic/Negative selection. -/
theorem spec_C9_witness :
    (run_filter (sampleRows.map enrich) ⟨"Arabic", ["Negative"], ""⟩).1 =
      sampleRows.map enrich ∧
    List.Sublist [enrich ⟨some "خدمة سيئة", -1⟩] (sampleRows.map enrich) :=
  ⟨(spec_C9 (sampleRows.map enrich) ⟨"Arabic", ["Negative"], ""⟩).1,
   (spec_C9 (sampleRows.map enrich) ⟨"Arabic", ["Negative"], ""⟩).2
     [enrich ⟨some "خدمة سيئة", -1⟩] (by decide)⟩

/-- C10: the filter-then-aggregate pass is deterministic; equal tables and
equal selections give the same subset and the same aggregate statistics, and
nothing else influences the outputs. -/
theorem spec_C10 (df1 df2 : List ERow) (s1 s2 : Selection)
    (hdf : df1 = df2) (hs : s1 = s2) :
    filtered_df df1 s1 = filtered_df df2 s2 ∧ pipeline df1 s1 = pipeline df2 s2 := by
  rw [hdf, hs]
  exact ⟨rfl, rfl⟩

/-- Witness for C10 on the worked example. -/
theorem spec_C10_witness :
    filtered_df (sampleRows.map enrich) ⟨"Arabic", ["Negative"], ""⟩ =
      filtered_df (sampleRows.map enrich) ⟨"Arabic", ["Negative"], ""⟩ ∧
    pipeline (sampleRows.map enrich) ⟨"Arabic", ["Negative"], ""⟩ =
      pipeline (sampleRows.map enrich) ⟨"Arabic", ["Negative"], ""⟩ :=
  spec_C10 (sampleRows.map enrich) (sampleRows.map enrich)
    ⟨"Arabic", ["Negative"], ""⟩ ⟨"Arabic", ["Negative"], ""⟩ rfl rfl

end SentimentScope
